import Mathlib

/-!
Verification of the POSIX compatibility shim headers
`packages/ruby/ext/kreuzberg_rb/native/include/strings.h` and
`packages/ruby/ext/kreuzberg_rb/native/include/unistd.h`.

The headers contain no run-time logic of their own: they are sequences of
preprocessor directives, conditional on `_MSC_VER`, that install macro
definitions, a typedef and header inclusions.  We embed the effect of
processing each header as a function on an explicit preprocessor state: a
macro table (name to replacement body) together with a trace of the
side events a C compiler would observe (system-header inclusions,
`include_next` dispatch, typedef declarations, and macro-redefinition
diagnostics).  Each header function mirrors its source file line by line.

The run-time semantics of the aliased functions is captured separately: the
Microsoft C runtime is an abstract structure of underscore-named functions,
and each shim name is a definition forwarding to the corresponding field,
exactly as the textual macro substitution does.
-/

namespace KreuzbergShim

/-- A compile-time event observed while the preprocessor runs a header. -/
inductive PPEvent where
  | includeSystem : String → PPEvent
  | includeNext : String → PPEvent
  | typedefDecl : String → String → PPEvent
  | redefinition : String → PPEvent
deriving DecidableEq

/-- Preprocessor state: the macro table (most recent definition first) and
the trace of events emitted so far. -/
structure PPState where
  defs : List (String × String)
  events : List PPEvent
deriving DecidableEq

/-- The state at the start of a fresh translation unit. -/
def initState : PPState := ⟨[], []⟩

/-- Replacement body currently bound to a macro name, if any. -/
def lookupSym (s : PPState) (n : String) : Option String :=
  s.defs.lookup n

/-- `defined(n)`: whether the macro name is currently defined. -/
def PPState.isDefined (s : PPState) (n : String) : Bool :=
  (lookupSym s n).isSome

/-- Emit a compile-time event (an `#include`, a typedef, …). -/
def emit (e : PPEvent) (s : PPState) : PPState :=
  { s with events := s.events ++ [e] }

/-- `#define n b`, unconditionally.  Redefining a name with a different body
raises a redefinition diagnostic (C11 6.10.3p2); redefining it with an
identical body is benign. -/
def defineSym (n b : String) (s : PPState) : PPState :=
  { defs := (n, b) :: s.defs,
    events := s.events ++
      (match s.defs.lookup n with
       | some old => if old = b then [] else [PPEvent.redefinition n]
       | none => []) }

/-- `#ifndef n / #define n b / #endif`. -/
def guardDefine (n b : String) (s : PPState) : PPState :=
  if s.isDefined n then s else defineSym n b s

/-- `#ifndef n / typedef ty n; / #endif` — the guard tests the *macro* name;
the typedef itself never enters the macro table. -/
def guardTypedef (n ty : String) (s : PPState) : PPState :=
  if s.isDefined n then s else emit (PPEvent.typedefDecl n ty) s

/-- Shallow embedding of `include/strings.h`: the effect of `#include
<strings.h>` resolving to the shim, in state `s`, with `_MSC_VER` given by
`msvc`.  Mirrors the source file line by line. -/
def includeStringsShim (msvc : Bool) (s : PPState) : PPState :=
  if s.isDefined "KREUZBERG_RUBY_STRINGS_H" then s
  else
    let s1 := defineSym "KREUZBERG_RUBY_STRINGS_H" "" s
    let s2 := emit (PPEvent.includeSystem "string.h") s1
    if msvc then
      let s3 := emit (PPEvent.includeSystem "ctype.h") s2
      let s4 := guardDefine "strcasecmp" "_stricmp" s3
      let s5 := guardDefine "strncasecmp" "_strnicmp" s4
      guardDefine "bzero" "memset((ptr), 0, (size))" s5
    else s2

/-- Shallow embedding of `include/unistd.h`: the effect of `#include
<unistd.h>` resolving to the shim.  Mirrors the source file line by line;
note that the ten function aliases at the end are defined without any
`#ifndef` guard, and that in the non-MSVC branch the header defers via
`#include_next <unistd.h>`. -/
def includeUnistdShim (msvc : Bool) (s : PPState) : PPState :=
  if s.isDefined "KREUZBERG_RUBY_UNISTD_H" then s
  else
    let s1 := defineSym "KREUZBERG_RUBY_UNISTD_H" "" s
    if msvc then
      let s2 := emit (PPEvent.includeSystem "direct.h") s1
      let s3 := emit (PPEvent.includeSystem "io.h") s2
      let s4 := emit (PPEvent.includeSystem "process.h") s3
      let s5 := emit (PPEvent.includeSystem "stdlib.h") s4
      let s6 := guardTypedef "ssize_t" "long" s5
      let s7 := guardDefine "F_OK" "0" s6
      let s8 := guardDefine "X_OK" "0" s7
      let s9 := guardDefine "W_OK" "2" s8
      let s10 := guardDefine "R_OK" "4" s9
      let s11 := defineSym "access" "_access" s10
      let s12 := defineSym "dup2" "_dup2" s11
      let s13 := defineSym "fileno" "_fileno" s12
      let s14 := defineSym "getpid" "_getpid" s13
      let s15 := defineSym "isatty" "_isatty" s14
      let s16 := defineSym "lseek" "_lseek" s15
      let s17 := defineSym "read" "_read" s16
      let s18 := defineSym "write" "_write" s17
      let s19 := defineSym "close" "_close" s18
      defineSym "unlink" "_unlink" s19
    else emit (PPEvent.includeNext "unistd.h") s1

/-- Spec-side model for the refinement comparison: the effect of including
the system's native header of the given name alone ("a symbol set
byte-identical to including the system's native header alone"). -/
def includeNativeHeader (name : String) (s : PPState) : PPState :=
  emit (PPEvent.includeSystem name) s

/-! ### Run-time semantics of the aliased names

Under `_MSC_VER` every shim name is a plain macro alias, so a call through
the POSIX name is textually the same call through the Microsoft runtime's
underscore-named function.  The runtime itself is opaque to the shim: we
model it as an abstract structure of functions and define each shim name as
the forwarding the macro substitution performs. -/

/-- The Microsoft C runtime's underscore-named functions, as an abstract
interface.  Argument and result types are abstracted (descriptors and byte
counts as `Int`/`Nat`); the shim forwards them untouched, so only arity
matters. -/
structure CRuntime where
  _access : String → Nat → Int
  _dup2 : Int → Int → Int
  _fileno : Int → Int
  _getpid : Unit → Int
  _isatty : Int → Int
  _lseek : Int → Int → Int → Int
  _read : Int → Int → Int → Int
  _write : Int → Int → Int → Int
  _close : Int → Int
  _unlink : String → Int
  _stricmp : String → String → Int
  _strnicmp : String → String → Nat → Int

/-- `#define F_OK 0` (unistd.h line 16). -/
def F_OK : Nat := 0

/-- `#define X_OK 0` (unistd.h line 19). -/
def X_OK : Nat := 0

/-- `#define W_OK 2` (unistd.h line 22). -/
def W_OK : Nat := 2

/-- `#define R_OK 4` (unistd.h line 25). -/
def R_OK : Nat := 4

/-- `#define access _access` (unistd.h line 28). -/
def access (rt : CRuntime) (path : String) (mode : Nat) : Int :=
  rt._access path mode

/-- `#define dup2 _dup2` (unistd.h line 29). -/
def dup2 (rt : CRuntime) (oldfd newfd : Int) : Int :=
  rt._dup2 oldfd newfd

/-- `#define fileno _fileno` (unistd.h line 30). -/
def fileno (rt : CRuntime) (stream : Int) : Int :=
  rt._fileno stream

/-- `#define getpid _getpid` (unistd.h line 31). -/
def getpid (rt : CRuntime) : Int :=
  rt._getpid ()

/-- `#define isatty _isatty` (unistd.h line 32). -/
def isatty (rt : CRuntime) (fd : Int) : Int :=
  rt._isatty fd

/-- `#define lseek _lseek` (unistd.h line 33). -/
def lseek (rt : CRuntime) (fd offset whence : Int) : Int :=
  rt._lseek fd offset whence

/-- `#define read _read` (unistd.h line 34). -/
def read (rt : CRuntime) (fd buf count : Int) : Int :=
  rt._read fd buf count

/-- `#define write _write` (unistd.h line 35). -/
def write (rt : CRuntime) (fd buf count : Int) : Int :=
  rt._write fd buf count

/-- `#define close _close` (unistd.h line 36). -/
def close (rt : CRuntime) (fd : Int) : Int :=
  rt._close fd

/-- `#define unlink _unlink` (unistd.h line 37). -/
def unlink (rt : CRuntime) (path : String) : Int :=
  rt._unlink path

/-- `#define strcasecmp _stricmp` (strings.h line 10). -/
def strcasecmp (rt : CRuntime) (a b : String) : Int :=
  rt._stricmp a b

/-- `#define strncasecmp _strnicmp` (strings.h line 13). -/
def strncasecmp (rt : CRuntime) (a b : String) (n : Nat) : Int :=
  rt._strnicmp a b n

/-- The C runtime's general memory-fill primitive `memset(buf, c, n)` on a
buffer of bytes: overwrite the first `n` bytes with `c`, leave the rest.
This models the standard-library function the `bzero` macro body calls; it
is not part of the shim itself. -/
def memset : List Nat → Nat → Nat → List Nat
  | [], _, _ => []
  | buf, _, 0 => buf
  | _ :: bs, c, Nat.succ k => c :: memset bs c k

/-- `#define bzero(ptr, size) memset((ptr), 0, (size))` (strings.h line 16):
the byte-level effect of a `bzero` call through the shim. -/
def bzero (buf : List Nat) (n : Nat) : List Nat :=
  memset buf 0 n

/-! ### Target widths for `ssize_t`

`unistd.h` line 12 defines `typedef long ssize_t`.  The Microsoft C ABI is
LLP64: `long` is 32 bits on both supported targets, while pointers are 32
bits on x86 and 64 bits on x64. -/

/-- The two targets of the Microsoft runtime. -/
inductive MsvcTarget
  | x86
  | x64
deriving DecidableEq

/-- Width of `long` under the Microsoft C ABI (LLP64: always 32 bits). -/
def longBits : MsvcTarget → Nat :=
  fun _ => 32

/-- Pointer width of each Microsoft target. -/
def pointerBits : MsvcTarget → Nat
  | MsvcTarget.x86 => 32
  | MsvcTarget.x64 => 64

/-- Width of the shim's `ssize_t`: `typedef long ssize_t` (unistd.h
line 12), so the width of `long`. -/
def ssize_t_bits (t : MsvcTarget) : Nat :=
  longBits t

/-! ### Lemmas about the preprocessor operations -/

@[simp]
theorem lookupSym_emit (e : PPEvent) (s : PPState) (n : String) :
    lookupSym (emit e s) n = lookupSym s n := rfl

@[simp]
theorem isDefined_emit (e : PPEvent) (s : PPState) (n : String) :
    (emit e s).isDefined n = s.isDefined n := rfl

@[simp]
theorem events_emit (e : PPEvent) (s : PPState) :
    (emit e s).events = s.events ++ [e] := rfl

@[simp]
theorem lookupSym_defineSym (m b : String) (s : PPState) (n : String) :
    lookupSym (defineSym m b s) n = if n == m then some b else lookupSym s n := by
  simp only [lookupSym, defineSym, List.lookup]
  cases h : n == m <;> simp [h]

@[simp]
theorem isDefined_defineSym (m b : String) (s : PPState) (n : String) :
    (defineSym m b s).isDefined n = ((n == m) || s.isDefined n) := by
  by_cases h : n == m <;> simp [PPState.isDefined, h]

@[simp]
theorem lookupSym_guardDefine (m b : String) (s : PPState) (n : String) :
    lookupSym (guardDefine m b s) n =
      if n == m then (if s.isDefined m then lookupSym s m else some b)
      else lookupSym s n := by
  by_cases hd : s.isDefined m <;> by_cases h : n == m <;>
    simp_all [guardDefine, PPState.isDefined]

@[simp]
theorem isDefined_guardDefine (m b : String) (s : PPState) (n : String) :
    (guardDefine m b s).isDefined n = ((n == m) || s.isDefined n) := by
  by_cases hd : s.isDefined m <;> by_cases h : n == m <;>
    simp_all [guardDefine]

@[simp]
theorem events_guardDefine (m b : String) (s : PPState) :
    (guardDefine m b s).events = s.events := by
  by_cases hd : s.isDefined m <;> simp [guardDefine, defineSym, hd]
  cases hl : s.defs.lookup m with
  | none => simp
  | some old => simp_all [PPState.isDefined, lookupSym, hl]

@[simp]
theorem lookupSym_guardTypedef (m ty : String) (s : PPState) (n : String) :
    lookupSym (guardTypedef m ty s) n = lookupSym s n := by
  by_cases hd : s.isDefined m <;> simp [guardTypedef, hd]

@[simp]
theorem isDefined_guardTypedef (m ty : String) (s : PPState) (n : String) :
    (guardTypedef m ty s).isDefined n = s.isDefined n := by
  simp [PPState.isDefined]

@[simp]
theorem events_guardTypedef (m ty : String) (s : PPState) :
    (guardTypedef m ty s).events =
      s.events ++ (if s.isDefined m then [] else [PPEvent.typedefDecl m ty]) := by
  by_cases hd : s.isDefined m <;> simp [guardTypedef, hd]

/-- A `defineSym` never emits a `typedefDecl` event. -/
theorem typedefDecl_mem_defineSym (m b : String) (s : PPState) (a ty : String) :
    (PPEvent.typedefDecl a ty ∈ (defineSym m b s).events) ↔
      PPEvent.typedefDecl a ty ∈ s.events := by
  simp only [defineSym]
  cases hl : s.defs.lookup m with
  | none => simp
  | some old =>
    by_cases h : old = b <;> simp [h]

/-- Once the include guard is set, reprocessing `strings.h` is a no-op. -/
theorem stringsShim_noop_of_defined (msvc : Bool) (s : PPState)
    (h : s.isDefined "KREUZBERG_RUBY_STRINGS_H" = true) :
    includeStringsShim msvc s = s := by
  simp [includeStringsShim, h]

/-- Once the include guard is set, reprocessing `unistd.h` is a no-op. -/
theorem unistdShim_noop_of_defined (msvc : Bool) (s : PPState)
    (h : s.isDefined "KREUZBERG_RUBY_UNISTD_H" = true) :
    includeUnistdShim msvc s = s := by
  simp [includeUnistdShim, h]

/-- Processing `strings.h` always leaves its include guard defined. -/
theorem stringsShim_guard_defined (msvc : Bool) (s : PPState)
    (h : s.isDefined "KREUZBERG_RUBY_STRINGS_H" = false) :
    (includeStringsShim msvc s).isDefined "KREUZBERG_RUBY_STRINGS_H" = true := by
  cases msvc <;> simp [includeStringsShim, h]

/-- Processing `unistd.h` always leaves its include guard defined. -/
theorem unistdShim_guard_defined (msvc : Bool) (s : PPState)
    (h : s.isDefined "KREUZBERG_RUBY_UNISTD_H" = false) :
    (includeUnistdShim msvc s).isDefined "KREUZBERG_RUBY_UNISTD_H" = true := by
  cases msvc <;> simp [includeUnistdShim, h]

/-- Writing `c` into the first `n` bytes and reading back position `i < n`
yields `c`. -/
theorem getD_memset (buf : List Nat) (c n i : Nat) (h1 : i < n)
    (h2 : i < buf.length) :
    (memset buf c n).getD i 1 = c := by
  induction buf generalizing n i with
  | nil => simp at h2
  | cons b bs ih =>
    cases n with
    | zero => omega
    | succ k =>
      cases i with
      | zero => simp [memset]
      | succ j =>
        simp only [memset, List.getD_cons_succ]
        exact ih k j (by omega) (by simpa using h2)

/-! ### Claim theorems -/

/-- C1 counterexample: on a POSIX runtime (`msvc = false`) the shim
`strings.h` is not inert — its effect on a fresh translation unit differs
from including the native `strings.h` alone (it pulls in `<string.h>` and
defines its guard macro instead), and it performs no include-next dispatch
at all. -/
theorem C1_posix_inert_counterexample :
    includeStringsShim false initState ≠ includeNativeHeader "strings.h" initState ∧
    PPEvent.includeNext "strings.h" ∉ (includeStringsShim false initState).events := by
  decide

/-- C1 amended: on a POSIX runtime only `unistd.h` defers via an
include-next mechanism; beyond defining its own include guard it performs
no substitution.  The shim `strings.h` does not defer: it defines its guard
macro and unconditionally includes `<string.h>` instead of the native
`strings.h`. -/
theorem C1_posix_behavior (s : PPState)
    (h1 : lookupSym s "KREUZBERG_RUBY_UNISTD_H" = none)
    (h2 : lookupSym s "KREUZBERG_RUBY_STRINGS_H" = none) :
    includeUnistdShim false s =
      PPState.mk (("KREUZBERG_RUBY_UNISTD_H", "") :: s.defs)
        (s.events ++ [PPEvent.includeNext "unistd.h"]) ∧
    includeStringsShim false s =
      PPState.mk (("KREUZBERG_RUBY_STRINGS_H", "") :: s.defs)
        (s.events ++ [PPEvent.includeSystem "string.h"]) := by
  simp only [lookupSym] at h1 h2
  constructor <;>
    simp [includeUnistdShim, includeStringsShim, PPState.isDefined, lookupSym,
      defineSym, emit, h1, h2]

/-- C1 amended, witnessed on a fresh translation unit. -/
theorem C1_posix_behavior_witness :
    includeUnistdShim false initState =
      PPState.mk [("KREUZBERG_RUBY_UNISTD_H", "")]
        [PPEvent.includeNext "unistd.h"] ∧
    includeStringsShim false initState =
      PPState.mk [("KREUZBERG_RUBY_STRINGS_H", "")]
        [PPEvent.includeSystem "string.h"] :=
  C1_posix_behavior initState rfl rfl

/-- C2 counterexample: the ten function aliases of `unistd.h` are not
individually guarded — in a macro environment where `access` is already
defined with a different body, including the shim produces a macro
redefinition diagnostic. -/
theorem C2_redefinition_counterexample :
    PPEvent.redefinition "access" ∈
      (includeUnistdShim true (PPState.mk [("access", "access_impl")] [])).events := by
  decide

/-- C2 amended: repeated inclusion of either header is idempotent thanks to
the outer include guards (including twice has the same effect as once, in
any macro environment and on either runtime); but the ten function aliases
`access`..`unlink` in `unistd.h` are defined without individual `#ifndef`
guards, so an environment that predefines one of them differently does
receive a redefinition diagnostic. -/
theorem C2_idempotent (msvc : Bool) (s : PPState) :
    includeStringsShim msvc (includeStringsShim msvc s) = includeStringsShim msvc s ∧
    includeUnistdShim msvc (includeUnistdShim msvc s) = includeUnistdShim msvc s := by
  constructor
  · by_cases h : s.isDefined "KREUZBERG_RUBY_STRINGS_H"
    · rw [stringsShim_noop_of_defined msvc s h, stringsShim_noop_of_defined msvc s h]
    · exact stringsShim_noop_of_defined msvc _
        (stringsShim_guard_defined msvc s (by simpa using h))
  · by_cases h : s.isDefined "KREUZBERG_RUBY_UNISTD_H"
    · rw [unistdShim_noop_of_defined msvc s h, unistdShim_noop_of_defined msvc s h]
    · exact unistdShim_noop_of_defined msvc _
        (unistdShim_guard_defined msvc s (by simpa using h))

/-- C3 counterexample: `ssize_t` is `typedef long`, and under the LLP64
Microsoft ABI `long` is 32 bits on the x64 target while pointers are 64
bits — so `ssize_t` is not wide enough to hold a pointer-sized difference
on every supported target. -/
theorem C3_ssize_t_counterexample :
    ¬ (pointerBits MsvcTarget.x64 ≤ ssize_t_bits MsvcTarget.x64) := by
  decide

/-- C3 amended: the shim's `ssize_t` (`typedef long`) is at least 32 bits
wide on every supported Microsoft target, but it matches or exceeds the
pointer width only on x86; on x64 it is narrower than a pointer-sized
difference. -/
theorem C3_ssize_t_width (t : MsvcTarget) :
    32 ≤ ssize_t_bits t ∧
    (pointerBits t ≤ ssize_t_bits t ↔ t = MsvcTarget.x86) := by
  cases t <;> exact ⟨by decide, by decide⟩

/-- C4: including the corresponding shim header under the Microsoft runtime
defines every name of the exported symbol surface in a fresh translation
unit — `strcasecmp`, `strncasecmp`, `bzero` from `strings.h`; the
permission bits and the ten function aliases from `unistd.h`; and `ssize_t`
as an emitted typedef. -/
theorem C4_exported_surface :
    (["strcasecmp", "strncasecmp", "bzero"].all
      (fun n => (includeStringsShim true initState).isDefined n)) = true ∧
    (["F_OK", "X_OK", "W_OK", "R_OK", "access", "dup2", "fileno", "getpid",
      "isatty", "lseek", "read", "write", "close", "unlink"].all
      (fun n => (includeUnistdShim true initState).isDefined n)) = true ∧
    PPEvent.typedefDecl "ssize_t" "long" ∈ (includeUnistdShim true initState).events := by
  decide

/-- C5: `bzero(buf, n)` zero-fills — after the call every byte at an index
below `n` reads back as zero — and `bzero` is expressed exactly as
`memset((ptr), 0, (size))`, the general memory-fill primitive, both
semantically and in the macro table the shim installs. -/
theorem C5_bzero_zero_fill (buf : List Nat) (n i : Nat) (h1 : i < n)
    (h2 : i < buf.length) :
    (bzero buf n).getD i 1 = 0 ∧
    bzero buf n = memset buf 0 n ∧
    lookupSym (includeStringsShim true initState) "bzero" =
      some "memset((ptr), 0, (size))" :=
  ⟨getD_memset buf 0 n i h1 h2, rfl, by decide⟩

/-- C5, witnessed on the concrete buffer `[7, 7, 7]` with `n = 2`,
`i = 1`. -/
theorem C5_bzero_zero_fill_witness :
    (bzero [7, 7, 7] 2).getD 1 1 = 0 ∧
    bzero [7, 7, 7] 2 = memset [7, 7, 7] 0 2 ∧
    lookupSym (includeStringsShim true initState) "bzero" =
      some "memset((ptr), 0, (size))" :=
  C5_bzero_zero_fill [7, 7, 7] 2 1 (by decide) (by decide)

/-- C6: the shim defines the permission-bit constants with exactly the
values `F_OK = 0`, `X_OK = 0`, `W_OK = 2`, `R_OK = 4`, so an execute
check `X_OK` coincides with the existence check `F_OK`. -/
theorem C6_permission_bits :
    F_OK = 0 ∧ X_OK = 0 ∧ W_OK = 2 ∧ R_OK = 4 ∧ X_OK = F_OK ∧
    lookupSym (includeUnistdShim true initState) "F_OK" = some "0" ∧
    lookupSym (includeUnistdShim true initState) "X_OK" = some "0" ∧
    lookupSym (includeUnistdShim true initState) "W_OK" = some "2" ∧
    lookupSym (includeUnistdShim true initState) "R_OK" = some "4" := by
  decide

/-- C7: `access(path, F_OK)` through the shim succeeds exactly when the
native existence check `_access(path, 0)` succeeds, for every runtime and
path — the shim's `access` is the macro alias `_access` and `F_OK` is
`0`. -/
theorem C7_access_existence (rt : CRuntime) (path : String) :
    (access rt path F_OK = 0 ↔ rt._access path 0 = 0) ∧
    lookupSym (includeUnistdShim true initState) "access" = some "_access" :=
  ⟨Iff.rfl, by decide⟩

/-- C8: every aliased function forwards to the underscore-named runtime
function unchanged — on all arguments the shim name returns exactly the
underlying function's value (error values included), and the macro table
binds each POSIX name to exactly the underscore name. -/
theorem C8_alias_forwarding (rt : CRuntime) (p q : String) (m n : Nat)
    (a b c : Int) :
    access rt p m = rt._access p m ∧
    dup2 rt a b = rt._dup2 a b ∧
    fileno rt a = rt._fileno a ∧
    getpid rt = rt._getpid () ∧
    isatty rt a = rt._isatty a ∧
    lseek rt a b c = rt._lseek a b c ∧
    read rt a b c = rt._read a b c ∧
    write rt a b c = rt._write a b c ∧
    close rt a = rt._close a ∧
    unlink rt p = rt._unlink p ∧
    strcasecmp rt p q = rt._stricmp p q ∧
    strncasecmp rt p q n = rt._strnicmp p q n ∧
    lookupSym (includeUnistdShim true initState) "access" = some "_access" ∧
    lookupSym (includeUnistdShim true initState) "dup2" = some "_dup2" ∧
    lookupSym (includeUnistdShim true initState) "fileno" = some "_fileno" ∧
    lookupSym (includeUnistdShim true initState) "getpid" = some "_getpid" ∧
    lookupSym (includeUnistdShim true initState) "isatty" = some "_isatty" ∧
    lookupSym (includeUnistdShim true initState) "lseek" = some "_lseek" ∧
    lookupSym (includeUnistdShim true initState) "read" = some "_read" ∧
    lookupSym (includeUnistdShim true initState) "write" = some "_write" ∧
    lookupSym (includeUnistdShim true initState) "close" = some "_close" ∧
    lookupSym (includeUnistdShim true initState) "unlink" = some "_unlink" ∧
    lookupSym (includeStringsShim true initState) "strcasecmp" = some "_stricmp" ∧
    lookupSym (includeStringsShim true initState) "strncasecmp" = some "_strnicmp" :=
  ⟨rfl, rfl, rfl, rfl, rfl, rfl, rfl, rfl, rfl, rfl, rfl, rfl, by decide⟩

/-- C9: the `#ifndef`-guarded definitions respect a pre-existing macro
environment — for each of `strcasecmp`, `strncasecmp`, `bzero`, `F_OK`,
`X_OK`, `W_OK`, `R_OK`, a previously defined binding survives inclusion
unchanged, and the shim's own binding is installed exactly when the name
was previously undefined; the `ssize_t` typedef is emitted exactly when no
macro `ssize_t` was defined. -/
theorem C9_ifndef_guards (s : PPState)
    (hg1 : lookupSym s "KREUZBERG_RUBY_STRINGS_H" = none)
    (hg2 : lookupSym s "KREUZBERG_RUBY_UNISTD_H" = none)
    (hev : s.events = []) :
    (lookupSym (includeStringsShim true s) "strcasecmp" =
      if s.isDefined "strcasecmp" then lookupSym s "strcasecmp"
      else some "_stricmp") ∧
    (lookupSym (includeStringsShim true s) "strncasecmp" =
      if s.isDefined "strncasecmp" then lookupSym s "strncasecmp"
      else some "_strnicmp") ∧
    (lookupSym (includeStringsShim true s) "bzero" =
      if s.isDefined "bzero" then lookupSym s "bzero"
      else some "memset((ptr), 0, (size))") ∧
    (lookupSym (includeUnistdShim true s) "F_OK" =
      if s.isDefined "F_OK" then lookupSym s "F_OK" else some "0") ∧
    (lookupSym (includeUnistdShim true s) "X_OK" =
      if s.isDefined "X_OK" then lookupSym s "X_OK" else some "0") ∧
    (lookupSym (includeUnistdShim true s) "W_OK" =
      if s.isDefined "W_OK" then lookupSym s "W_OK" else some "2") ∧
    (lookupSym (includeUnistdShim true s) "R_OK" =
      if s.isDefined "R_OK" then lookupSym s "R_OK" else some "4") ∧
    ((PPEvent.typedefDecl "ssize_t" "long" ∈ (includeUnistdShim true s).events) ↔
      s.isDefined "ssize_t" = false) := by
  have hd1 : s.isDefined "KREUZBERG_RUBY_STRINGS_H" = false := by
    simp [PPState.isDefined, hg1]
  have hd2 : s.isDefined "KREUZBERG_RUBY_UNISTD_H" = false := by
    simp [PPState.isDefined, hg2]
  refine ⟨?_, ?_, ?_, ?_, ?_, ?_, ?_, ?_⟩
  · simp [includeStringsShim, hd1]
  · simp [includeStringsShim, hd1]
  · simp [includeStringsShim, hd1]
  · simp [includeUnistdShim, hd2]
  · simp [includeUnistdShim, hd2]
  · simp [includeUnistdShim, hd2]
  · simp [includeUnistdShim, hd2]
  · simp only [includeUnistdShim, hd2, Bool.false_eq_true, if_false,
      typedefDecl_mem_defineSym, events_guardDefine, events_guardTypedef,
      isDefined_guardTypedef, isDefined_emit, isDefined_defineSym,
      events_emit, hev]
    by_cases hz : s.isDefined "ssize_t" <;> simp_all [typedefDecl_mem_defineSym]

/-- C9, witnessed in an environment that predefines `F_OK` as `1`: the
pre-existing binding survives, and every previously undefined name receives
the shim's binding. -/
theorem C9_ifndef_guards_witness :
    (lookupSym (includeStringsShim true (PPState.mk [("F_OK", "1")] []))
        "strcasecmp" =
      if (PPState.mk [("F_OK", "1")] []).isDefined "strcasecmp" then
        lookupSym (PPState.mk [("F_OK", "1")] []) "strcasecmp"
      else some "_stricmp") ∧
    (lookupSym (includeStringsShim true (PPState.mk [("F_OK", "1")] []))
        "strncasecmp" =
      if (PPState.mk [("F_OK", "1")] []).isDefined "strncasecmp" then
        lookupSym (PPState.mk [("F_OK", "1")] []) "strncasecmp"
      else some "_strnicmp") ∧
    (lookupSym (includeStringsShim true (PPState.mk [("F_OK", "1")] []))
        "bzero" =
      if (PPState.mk [("F_OK", "1")] []).isDefined "bzero" then
        lookupSym (PPState.mk [("F_OK", "1")] []) "bzero"
      else some "memset((ptr), 0, (size))") ∧
    (lookupSym (includeUnistdShim true (PPState.mk [("F_OK", "1")] []))
        "F_OK" =
      if (PPState.mk [("F_OK", "1")] []).isDefined "F_OK" then
        lookupSym (PPState.mk [("F_OK", "1")] []) "F_OK"
      else some "0") ∧
    (lookupSym (includeUnistdShim true (PPState.mk [("F_OK", "1")] []))
        "X_OK" =
      if (PPState.mk [("F_OK", "1")] []).isDefined "X_OK" then
        lookupSym (PPState.mk [("F_OK", "1")] []) "X_OK"
      else some "0") ∧
    (lookupSym (includeUnistdShim true (PPState.mk [("F_OK", "1")] []))
        "W_OK" =
      if (PPState.mk [("F_OK", "1")] []).isDefined "W_OK" then
        lookupSym (PPState.mk [("F_OK", "1")] []) "W_OK"
      else some "2") ∧
    (lookupSym (includeUnistdShim true (PPState.mk [("F_OK", "1")] []))
        "R_OK" =
      if (PPState.mk [("F_OK", "1")] []).isDefined "R_OK" then
        lookupSym (PPState.mk [("F_OK", "1")] []) "R_OK"
      else some "4") ∧
    ((PPEvent.typedefDecl "ssize_t" "long" ∈
        (includeUnistdShim true (PPState.mk [("F_OK", "1")] [])).events) ↔
      (PPState.mk [("F_OK", "1")] []).isDefined "ssize_t" = false) :=
  C9_ifndef_guards (PPState.mk [("F_OK", "1")] []) rfl rfl rfl

/-- C10: on either runtime, a first inclusion of the shim `strings.h`
unconditionally includes `<string.h>` and defines the include-guard macro
`KREUZBERG_RUBY_STRINGS_H` (with empty body), making both visible in the
translation unit. -/
theorem C10_strings_unconditional (msvc : Bool) (s : PPState)
    (hg : lookupSym s "KREUZBERG_RUBY_STRINGS_H" = none) :
    PPEvent.includeSystem "string.h" ∈ (includeStringsShim msvc s).events ∧
    (includeStringsShim msvc s).isDefined "KREUZBERG_RUBY_STRINGS_H" = true ∧
    lookupSym (includeStringsShim msvc s) "KREUZBERG_RUBY_STRINGS_H" = some "" := by
  have hd : s.isDefined "KREUZBERG_RUBY_STRINGS_H" = false := by
    simp [PPState.isDefined, hg]
  cases msvc <;> simp [includeStringsShim, hd]

/-- C10, witnessed on a fresh translation unit on the POSIX side
(`msvc = false`). -/
theorem C10_strings_unconditional_witness :
    PPEvent.includeSystem "string.h" ∈ (includeStringsShim false initState).events ∧
    (includeStringsShim false initState).isDefined "KREUZBERG_RUBY_STRINGS_H" = true ∧
    lookupSym (includeStringsShim false initState) "KREUZBERG_RUBY_STRINGS_H" =
      some "" :=
  C10_strings_unconditional false initState rfl

end KreuzbergShim
